import Mathlib

/-!
Verification development for the Bucketeer OpenFeature node server provider.

The definitions below are a shallow embedding of the TypeScript sources:
* `src/internal/BucketeerProvider.ts` — the provider class (resolution methods,
  lifecycle, event emission), embedded as pure functions over an explicit
  `ProviderState`, returning the thrown error or result together with the list
  of events emitted during the call and a count of external calls made.
* `src/internal/BKTEvaluationDetailExt.ts` — the detail-to-resolution projections.
* `src/internal/EvaluationContext.ts` — context-to-user conversion.
* the older provider variant (`BuckeeterProvider`) kept in the repository,
  from which only its hard-coded readiness-wait timeout is needed here.

JavaScript runtime values that can flow through `resolveObjectEvaluation` are
modelled by `JSValue`, with `jsTypeof` and `jsIsArray` mirroring `typeof` and
`Array.isArray`. JavaScript exceptions are modelled with `Except`.
-/

namespace BucketeerOF

/-- Model of a JSON runtime value (`JsonValue` / `BKTValue` at runtime). -/
inductive JSValue where
  | null
  | str (s : String)
  | num (n : Int)
  | bool (b : Bool)
  | obj (fields : List (String × JSValue))
  | arr (elems : List JSValue)
deriving Repr

/-- JavaScript `typeof` on a `JSValue`; note `typeof null = "object"`. -/
def jsTypeof : JSValue → String
  | .null => "object"
  | .str _ => "string"
  | .num _ => "number"
  | .bool _ => "boolean"
  | .obj _ => "object"
  | .arr _ => "object"

/-- Whether the value is the JavaScript `null`. -/
def JSValue.isNull : JSValue → Bool
  | .null => true
  | _ => false

/-- JavaScript `Array.isArray`. -/
def jsIsArray : JSValue → Bool
  | .arr _ => true
  | _ => false

/-- The only error code the provider produces (`ErrorCode.TYPE_MISMATCH`). -/
inductive ErrorCode where
  | TYPE_MISMATCH
deriving DecidableEq, Repr

/-- `ResolutionDetails<T>` from the OpenFeature server SDK, restricted to the
fields this provider populates. Absent optional fields are `none`. -/
structure ResolutionDetails (α : Type) where
  value : α
  variant : Option String := none
  reason : Option String := none
  errorCode : Option ErrorCode := none
  errorMessage : Option String := none
deriving Repr

/-- `StandardResolutionReasons.ERROR`. -/
def standardResolutionReasonERROR : String := "ERROR"

/-- `wrongTypeResult` from `BucketeerProvider.ts`. -/
def wrongTypeResult {α : Type} (value : α) (errorMessage : String) : ResolutionDetails α :=
  { value := value
  , reason := some standardResolutionReasonERROR
  , errorCode := some ErrorCode.TYPE_MISMATCH
  , errorMessage := some errorMessage }

/-- `BKTEvaluationDetails<T>` from the wrapped Bucketeer SDK. -/
structure BKTEvaluationDetails (α : Type) where
  featureId : String
  featureVersion : Nat
  userId : String
  variationId : String
  variationValue : α
  variationName : String
  reason : String
deriving Repr

/-- `toResolutionDetails` from `BKTEvaluationDetailExt.ts`. -/
def toResolutionDetails {α : Type} (evaluationDetails : BKTEvaluationDetails α) :
    ResolutionDetails α :=
  { value := evaluationDetails.variationValue
  , variant := some evaluationDetails.variationName
  , reason := some evaluationDetails.reason }

/-- `toResolutionDetailsJsonValue` from `BKTEvaluationDetailExt.ts` (at runtime
the cast is the identity, so it coincides with the typed projection). -/
def toResolutionDetailsJsonValue (evaluationDetails : BKTEvaluationDetails JSValue) :
    ResolutionDetails JSValue :=
  { value := evaluationDetails.variationValue
  , variant := some evaluationDetails.variationName
  , reason := some evaluationDetails.reason }

/-- Model of an OpenFeature `EvaluationContextValue` at runtime: primitives,
`Date` (carried as its ISO string), arrays and objects, plus the JavaScript
`undefined` that a record entry may hold. -/
inductive CtxValue where
  | null
  | undefined
  | str (s : String)
  | num (n : Int)
  | bool (b : Bool)
  | date (iso : String)
  | arr (elems : List CtxValue)
  | obj (fields : List (String × CtxValue))
deriving Repr

/-- Escapes quote and backslash characters, as the JSON serializer does. -/
def escapeJsonString (s : String) : String :=
  s.foldl
    (fun acc c =>
      if c = '"' then acc ++ "\\\""
      else if c = '\\' then acc ++ "\\\\"
      else acc.push c)
    ""

mutual

/-- Model of `JSON.stringify` on a context value (used by
`convertContextValueToString` for arrays and objects). -/
def jsonStringifyCtx : CtxValue → String
  | .null => "null"
  | .undefined => "null"
  | .str s => "\"" ++ escapeJsonString s ++ "\""
  | .num n => toString n
  | .bool b => if b then "true" else "false"
  | .date iso => "\"" ++ iso ++ "\""
  | .arr xs => "[" ++ jsonStringifyCtxList xs ++ "]"
  | .obj fs => "\x7b" ++ jsonStringifyCtxFields fs ++ "\x7d"

/-- Comma-separated serialization of array elements. -/
def jsonStringifyCtxList : List CtxValue → String
  | [] => ""
  | [x] => jsonStringifyCtx x
  | x :: y :: xs => jsonStringifyCtx x ++ "," ++ jsonStringifyCtxList (y :: xs)

/-- Comma-separated serialization of object fields. -/
def jsonStringifyCtxFields : List (String × CtxValue) → String
  | [] => ""
  | [(k, v)] => "\"" ++ escapeJsonString k ++ "\":" ++ jsonStringifyCtx v
  | (k, v) :: f :: fs =>
      "\"" ++ escapeJsonString k ++ "\":" ++ jsonStringifyCtx v ++ ","
        ++ jsonStringifyCtxFields (f :: fs)

end

/-- `convertContextValueToString` from `EvaluationContext.ts`. -/
def convertContextValueToString : CtxValue → String
  | .null => ""
  | .undefined => ""
  | .date iso => iso
  | .arr xs => jsonStringifyCtx (.arr xs)
  | .obj fs => jsonStringifyCtx (.obj fs)
  | .str s => s
  | .num n => toString n
  | .bool b => if b then "true" else "false"

/-- An OpenFeature `EvaluationContext`: the distinguished `targetingKey`
entry (optional, may be the falsy empty string) and the remaining
attribute entries in record order. -/
structure EvaluationContext where
  targetingKey : Option String := none
  attributes : List (String × CtxValue) := []

/-- A Bucketeer `User`. -/
structure User where
  id : String
  data : List (String × String)
deriving DecidableEq, Repr

/-- The error classes the provider can throw. -/
inductive ThrownError where
  | InvalidContextError (message : String)
  | ProviderFatalError (message : String)
  | ProviderNotReadyError (message : String)
  | TargetingKeyMissingError (message : String)
deriving DecidableEq, Repr

/-- `evaluationContextToBKTUser` from `EvaluationContext.ts`: requires a truthy
targeting key (absent and empty-string keys are rejected), then stringifies
every other attribute into the user's custom data. -/
def evaluationContextToBKTUser (evaluationContext : EvaluationContext) :
    Except ThrownError User :=
  match evaluationContext.targetingKey with
  | none => .error (.TargetingKeyMissingError "targetingKey is required")
  | some targetingKey =>
      if targetingKey = "" then
        .error (.TargetingKeyMissingError "targetingKey is required")
      else
        .ok { id := targetingKey
            , data := evaluationContext.attributes.map
                (fun p => (p.1, convertContextValueToString p.2)) }

/-- The wrapped Bucketeer client (`Bucketeer` interface): each
`...VariationDetails` operation is an arbitrary total function, standing for
whatever the external SDK returns. -/
structure Client where
  booleanVariationDetails : User → String → Bool → BKTEvaluationDetails Bool
  stringVariationDetails : User → String → String → BKTEvaluationDetails String
  numberVariationDetails : User → String → Int → BKTEvaluationDetails Int
  objectVariationDetails : User → String → JSValue → BKTEvaluationDetails JSValue

/-- Provider state: the optional client handle (`private client?: Bucketeer`). -/
structure ProviderState where
  client : Option Client := none

/-- The provider events emitted on the `OpenFeatureEventEmitter`. -/
inductive ServerProviderEvents where
  | Ready
  | Error
deriving DecidableEq, Repr

/-- `requiredBKTClient` from `BucketeerProvider.ts`: returns the handle, or
emits `Error` and throws `ProviderNotReadyError` when it is absent. The
second component is the list of events emitted. -/
def requiredBKTClient (st : ProviderState) :
    Except ThrownError Client × List ServerProviderEvents :=
  match st.client with
  | none => (.error (.ProviderNotReadyError "Bucketeer client is not initialized"), [.Error])
  | some client => (.ok client, [])

/-- `resolveBooleanEvaluation`: client gate, context-to-user conversion, then a
direct projection of the wrapped client's details. The result carries the
thrown error or resolution details, the events emitted, and the number of
calls made to the wrapped client's variation-details operation. -/
def resolveBooleanEvaluation (st : ProviderState) (flagKey : String)
    (defaultValue : Bool) (context : EvaluationContext) :
    Except ThrownError (ResolutionDetails Bool) × List ServerProviderEvents × Nat :=
  match requiredBKTClient st with
  | (.error e, events) => (.error e, events, 0)
  | (.ok client, events) =>
      match evaluationContextToBKTUser context with
      | .error e => (.error e, events, 0)
      | .ok user =>
          let evaluationDetails := client.booleanVariationDetails user flagKey defaultValue
          (.ok (toResolutionDetails evaluationDetails), events, 1)

/-- `resolveStringEvaluation`: same shape as the boolean resolver. -/
def resolveStringEvaluation (st : ProviderState) (flagKey : String)
    (defaultValue : String) (context : EvaluationContext) :
    Except ThrownError (ResolutionDetails String) × List ServerProviderEvents × Nat :=
  match requiredBKTClient st with
  | (.error e, events) => (.error e, events, 0)
  | (.ok client, events) =>
      match evaluationContextToBKTUser context with
      | .error e => (.error e, events, 0)
      | .ok user =>
          let evaluationDetails := client.stringVariationDetails user flagKey defaultValue
          (.ok (toResolutionDetails evaluationDetails), events, 1)

/-- `resolveNumberEvaluation`: same shape as the boolean resolver. -/
def resolveNumberEvaluation (st : ProviderState) (flagKey : String)
    (defaultValue : Int) (context : EvaluationContext) :
    Except ThrownError (ResolutionDetails Int) × List ServerProviderEvents × Nat :=
  match requiredBKTClient st with
  | (.error e, events) => (.error e, events, 0)
  | (.ok client, events) =>
      match evaluationContextToBKTUser context with
      | .error e => (.error e, events, 0)
      | .ok user =>
          let evaluationDetails := client.numberVariationDetails user flagKey defaultValue
          (.ok (toResolutionDetails evaluationDetails), events, 1)

/-- `resolveObjectEvaluation` from `BucketeerProvider.ts`: the early
default-value guard (`defaultValue === null || typeof defaultValue !==
'object'`), then the client gate, the client call, and the three-step
validation of the returned `variationValue` (null check, object-kind check
with array/object shape agreement, primitive rejection). -/
def resolveObjectEvaluation (st : ProviderState) (flagKey : String)
    (defaultValue : JSValue) (context : EvaluationContext) :
    Except ThrownError (ResolutionDetails JSValue) × List ServerProviderEvents × Nat :=
  if defaultValue.isNull || jsTypeof defaultValue != "object" then
    (.ok (wrongTypeResult defaultValue
        ("Default value must be an object or array but got "
          ++ (if defaultValue.isNull then "null" else jsTypeof defaultValue))), [], 0)
  else
    match requiredBKTClient st with
    | (.error e, events) => (.error e, events, 0)
    | (.ok client, events) =>
        match evaluationContextToBKTUser context with
        | .error e => (.error e, events, 0)
        | .ok user =>
            let evaluationDetails := client.objectVariationDetails user flagKey defaultValue
            if evaluationDetails.variationValue.isNull then
              (.ok (wrongTypeResult defaultValue "Expected object but got null"), events, 1)
            else if jsTypeof evaluationDetails.variationValue = "object" then
              let resultIsJsonArray := jsIsArray evaluationDetails.variationValue
              let defaultIsJsonArray := jsIsArray defaultValue
              if resultIsJsonArray != defaultIsJsonArray then
                (.ok (wrongTypeResult defaultValue
                    ("Expected " ++ (if defaultIsJsonArray then "array" else "object")
                      ++ " but got "
                      ++ (if resultIsJsonArray then "array" else "object"))), events, 1)
              else
                (.ok (toResolutionDetailsJsonValue evaluationDetails), events, 1)
            else
              (.ok (wrongTypeResult defaultValue
                  ("Expected object but got "
                    ++ jsTypeof evaluationDetails.variationValue)), events, 1)

/-- A JavaScript `Error` as seen by the `catch` block: its `name` (used for
timeout classification) and `message`. -/
structure JsError where
  name : String
  message : String
deriving DecidableEq, Repr

/-- JavaScript string interpolation of an `Error` (its `toString`). -/
def jsErrorToString (e : JsError) : String := e.name ++ ": " ++ e.message

/-- `initialize` from `BucketeerProvider.ts`. The external effects are
parameters: `constructResult` is what `initializeBKTClient(config)` does
(returns a client or throws), `waitResult` is what
`client.waitForInitialization({timeout})` does. Result: thrown error or unit,
the state afterwards, the events emitted, and the number of client
constructions attempted. The handle is stored before the readiness wait, so a
failed wait leaves it set. -/
def providerInit (st : ProviderState) (context : Option EvaluationContext)
    (constructResult : Except JsError Client) (waitResult : Except JsError Unit) :
    Except ThrownError Unit × ProviderState × List ServerProviderEvents × Nat :=
  match context with
  | none => (.error (.InvalidContextError "context is required"), st, [], 0)
  | some _ =>
      match constructResult with
      | .error e =>
          if e.name = "TimeoutError" then
            (.ok (), st, [.Ready], 1)
          else
            (.error (.ProviderFatalError
                ("Failed to initialize Bucketeer client: " ++ jsErrorToString e)),
              st, [.Error], 1)
      | .ok client =>
          let st' : ProviderState := { st with client := some client }
          match waitResult with
          | .ok () => (.ok (), st', [.Ready], 1)
          | .error e =>
              if e.name = "TimeoutError" then
                (.ok (), st', [.Ready], 1)
              else
                (.error (.ProviderFatalError
                    ("Failed to initialize Bucketeer client: " ++ jsErrorToString e)),
                  st', [.Error], 1)

/-- `onClose`: destroys the wrapped client (external, best-effort) and clears
the handle unconditionally. -/
def onClose (st : ProviderState) : ProviderState := { st with client := none }

/-- `DEFAULT_WAIT_FOR_INITIALIZATION_TIMEOUT_MS` from `BucketeerProvider.ts`. -/
def DEFAULT_WAIT_FOR_INITIALIZATION_TIMEOUT_MS : Nat := 60000

/-- The readiness-wait timeout selected by the constructor:
`options?.initializationTimeoutMs ?? DEFAULT_WAIT_FOR_INITIALIZATION_TIMEOUT_MS`. -/
def selectedInitTimeoutMs (optionTimeoutMs : Option Nat) : Nat :=
  optionTimeoutMs.getD DEFAULT_WAIT_FOR_INITIALIZATION_TIMEOUT_MS

/-- The readiness-wait timeout hard-coded by the older `BuckeeterProvider`
variant: `await client.waitForInitialization({ timeout: 30_000 })`. -/
def variantWaitTimeoutMs : Nat := 30000

/-- Spec-side restatement of the claimed result mapping for object evaluation,
following the specification's wording and case order: a null result fails with
`TYPE_MISMATCH` and message `Expected object but got null`; a primitive result
fails naming its `typeof`; a structured result whose array-ness disagrees with
the default's fails naming the default's shape first; otherwise the success
record `(value, variant, reason)` is returned unchanged. Used to compare the
implementation against the specified mapping. -/
def specObjectOutcome (defaultValue : JSValue) (d : BKTEvaluationDetails JSValue) :
    ResolutionDetails JSValue :=
  if d.variationValue.isNull then
    wrongTypeResult defaultValue "Expected object but got null"
  else if jsTypeof d.variationValue != "object" then
    wrongTypeResult defaultValue ("Expected object but got " ++ jsTypeof d.variationValue)
  else if jsIsArray d.variationValue != jsIsArray defaultValue then
    wrongTypeResult defaultValue
      ("Expected " ++ (if jsIsArray defaultValue then "array" else "object")
        ++ " but got " ++ (if jsIsArray d.variationValue then "array" else "object"))
  else
    { value := d.variationValue
    , variant := some d.variationName
    , reason := some d.reason }

/-- Concrete evaluation-details record used by the test fixture client. -/
def detailsOf {α : Type} (v : α) : BKTEvaluationDetails α :=
  { featureId := "feature-1"
  , featureVersion := 1
  , userId := "user-1"
  , variationId := "variation-1"
  , variationValue := v
  , variationName := "variant-a"
  , reason := "TARGET" }

/-- Fixture client that echoes the supplied default back as the variation. -/
def client0 : Client :=
  { booleanVariationDetails := fun _ _ d => detailsOf d
  , stringVariationDetails := fun _ _ d => detailsOf d
  , numberVariationDetails := fun _ _ d => detailsOf d
  , objectVariationDetails := fun _ _ d => detailsOf d }

/-- Fixture context with a valid targeting key and no attributes. -/
def ctx0 : EvaluationContext := { targetingKey := some "user-1", attributes := [] }

/-- The user the fixture context converts to. -/
def user0 : User := { id := "user-1", data := [] }

/-- C1: for a null or primitive (string/number/boolean) default value,
`resolveObjectEvaluation` returns a `TYPE_MISMATCH` outcome whose message is
exactly `Default value must be an object or array but got <kind>` (with
`null` for the null default), whose `value` is the original default
unchanged, emitting no event and making zero calls to the wrapped client's
`objectVariationDetails` — in every provider state. -/
theorem c1_default_guard_rejects_null_and_primitives
    (st : ProviderState) (flagKey : String) (context : EvaluationContext) :
    (resolveObjectEvaluation st flagKey JSValue.null context
      = (.ok (wrongTypeResult JSValue.null
          "Default value must be an object or array but got null"), [], 0))
  ∧ (∀ s, resolveObjectEvaluation st flagKey (JSValue.str s) context
      = (.ok (wrongTypeResult (JSValue.str s)
          "Default value must be an object or array but got string"), [], 0))
  ∧ (∀ n, resolveObjectEvaluation st flagKey (JSValue.num n) context
      = (.ok (wrongTypeResult (JSValue.num n)
          "Default value must be an object or array but got number"), [], 0))
  ∧ (∀ b, resolveObjectEvaluation st flagKey (JSValue.bool b) context
      = (.ok (wrongTypeResult (JSValue.bool b)
          "Default value must be an object or array but got boolean"), [], 0)) :=
  ⟨rfl, fun _ => rfl, fun _ => rfl, fun _ => rfl⟩

/-- C2: for a non-null structured default value, with a client present and a
convertible context, `resolveObjectEvaluation` maps the wrapped client's
returned `variationValue` exactly as the specification describes
(`specObjectOutcome`): null result → `TYPE_MISMATCH` `Expected object but got
null`; primitive result → `TYPE_MISMATCH` naming its typeof; array/object
shape disagreement → `TYPE_MISMATCH` naming the default's shape first; else
the unchanged success record — always with `value` = the original default on
failure, one client call, and no events. -/
theorem c2_object_result_mapping (client : Client) (flagKey : String)
    (context : EvaluationContext) (user : User) (defaultValue : JSValue)
    (huser : evaluationContextToBKTUser context = .ok user)
    (hobj : jsTypeof defaultValue = "object")
    (hnn : defaultValue.isNull = false) :
    resolveObjectEvaluation { client := some client } flagKey defaultValue context
      = (.ok (specObjectOutcome defaultValue
          (client.objectVariationDetails user flagKey defaultValue)), [], 1) := by
  have hguard : (defaultValue.isNull || jsTypeof defaultValue != "object") = false := by
    simp [hnn, hobj]
  unfold resolveObjectEvaluation specObjectOutcome
  rw [hguard]
  simp only [Bool.false_eq_true, if_false, requiredBKTClient, huser]
  by_cases h1 : (client.objectVariationDetails user flagKey defaultValue).variationValue.isNull
  · simp [h1]
  · by_cases h2 :
      jsTypeof (client.objectVariationDetails user flagKey defaultValue).variationValue
        = "object"
    · by_cases h3 :
        jsIsArray (client.objectVariationDetails user flagKey defaultValue).variationValue
          = jsIsArray defaultValue
      · simp [h1, h2, h3, toResolutionDetailsJsonValue]
      · simp [h1, h2, h3]
    · simp [h1, h2]

/-- C2 witness: concrete run through the success branch of the mapping. -/
theorem c2_object_result_mapping_witness :
    evaluationContextToBKTUser ctx0 = .ok user0
  ∧ jsTypeof (JSValue.obj []) = "object"
  ∧ (JSValue.obj []).isNull = false
  ∧ resolveObjectEvaluation { client := some client0 } "flag" (JSValue.obj []) ctx0
      = (.ok (specObjectOutcome (JSValue.obj [])
          (client0.objectVariationDetails user0 "flag" (JSValue.obj []))), [], 1) :=
  ⟨rfl, rfl, rfl,
    c2_object_result_mapping client0 "flag" ctx0 user0 (JSValue.obj []) rfl rfl rfl⟩

/-- C3 counterexample: with no client handle stored, calling the object
resolver with a primitive default value does not throw (it returns an `ok`
outcome) and emits no `Error` event — refuting the claim that every resolve
method with all arguments raises `ProviderNotReady` and signals `Error` when
no handle is present. -/
theorem c3_counterexample_object_resolver_with_primitive_default :
    (resolveObjectEvaluation { client := none } "flag" (JSValue.str "primitive")
        ctx0).1.isOk = true
  ∧ (resolveObjectEvaluation { client := none } "flag" (JSValue.str "primitive")
        ctx0).2.1 = [] :=
  ⟨rfl, rfl⟩

/-- C3 (amended): when no client handle is present (the state before
`initialize` stores one — and `onClose` always returns exactly that state),
the boolean, string and number resolvers, and the object resolver for every
object-or-array default value, throw `ProviderNotReadyError` and emit one
`Error` event, making no client call. (A null or primitive object default is
instead rejected by the earlier default-value guard.) -/
theorem c3_no_client_raises_provider_not_ready :
    (∀ fk dv ctx, resolveBooleanEvaluation { client := none } fk dv ctx
      = (.error (.ProviderNotReadyError "Bucketeer client is not initialized"),
          [.Error], 0))
  ∧ (∀ fk dv ctx, resolveStringEvaluation { client := none } fk dv ctx
      = (.error (.ProviderNotReadyError "Bucketeer client is not initialized"),
          [.Error], 0))
  ∧ (∀ fk dv ctx, resolveNumberEvaluation { client := none } fk dv ctx
      = (.error (.ProviderNotReadyError "Bucketeer client is not initialized"),
          [.Error], 0))
  ∧ (∀ fk fields ctx, resolveObjectEvaluation { client := none } fk
        (JSValue.obj fields) ctx
      = (.error (.ProviderNotReadyError "Bucketeer client is not initialized"),
          [.Error], 0))
  ∧ (∀ fk elems ctx, resolveObjectEvaluation { client := none } fk
        (JSValue.arr elems) ctx
      = (.error (.ProviderNotReadyError "Bucketeer client is not initialized"),
          [.Error], 0))
  ∧ (∀ st, onClose st = { client := none }) :=
  ⟨fun _ _ _ => rfl, fun _ _ _ => rfl, fun _ _ _ => rfl,
    fun _ _ _ => rfl, fun _ _ _ => rfl, fun _ => rfl⟩

/-- C4: when the client is constructed successfully and the readiness wait
throws an error named `TimeoutError`, `initialize` resolves without throwing,
emits exactly the `Ready` signal, and leaves the handle set to the new
client. -/
theorem c4_timeout_failure_is_nonfatal (st : ProviderState)
    (ctx : EvaluationContext) (client : Client) (e : JsError)
    (h : e.name = "TimeoutError") :
    providerInit st (some ctx) (.ok client) (.error e)
      = (.ok (), { client := some client }, [.Ready], 1) := by
  simp [providerInit, h]

/-- C4 witness: a concrete timeout-classified failure. -/
theorem c4_timeout_failure_is_nonfatal_witness :
    (JsError.mk "TimeoutError" "timed out").name = "TimeoutError"
  ∧ providerInit { client := none } (some ctx0) (.ok client0)
        (.error (JsError.mk "TimeoutError" "timed out"))
      = (.ok (), { client := some client0 }, [.Ready], 1) :=
  ⟨rfl, c4_timeout_failure_is_nonfatal { client := none } ctx0 client0 _ rfl⟩

/-- C5: when the readiness wait throws an error not named `TimeoutError`,
`initialize` emits the `Error` signal and throws `ProviderFatalError`
wrapping the underlying cause's description, while the handle stays set to
the client that was stored just before the wait. -/
theorem c5_nontimeout_failure_is_fatal (st : ProviderState)
    (ctx : EvaluationContext) (client : Client) (e : JsError)
    (h : e.name ≠ "TimeoutError") :
    providerInit st (some ctx) (.ok client) (.error e)
      = (.error (.ProviderFatalError
          ("Failed to initialize Bucketeer client: " ++ jsErrorToString e)),
        { client := some client }, [.Error], 1) := by
  simp [providerInit, h]

/-- C5 witness: a concrete non-timeout failure. -/
theorem c5_nontimeout_failure_is_fatal_witness :
    (JsError.mk "Error" "boom").name ≠ "TimeoutError"
  ∧ providerInit { client := none } (some ctx0) (.ok client0)
        (.error (JsError.mk "Error" "boom"))
      = (.error (.ProviderFatalError
          ("Failed to initialize Bucketeer client: "
            ++ jsErrorToString (JsError.mk "Error" "boom"))),
        { client := some client0 }, [.Error], 1) :=
  ⟨by decide,
    c5_nontimeout_failure_is_fatal { client := none } ctx0 client0 _ (by decide)⟩

/-- C6: `initialize` with an absent context always throws
`InvalidContextError`, regardless of what client construction or the
readiness wait would have done; the state is unchanged, no event is emitted,
and the construction count is zero (the client is never constructed). -/
theorem c6_absent_context_invalid (st : ProviderState)
    (constructResult : Except JsError Client) (waitResult : Except JsError Unit) :
    providerInit st none constructResult waitResult
      = (.error (.InvalidContextError "context is required"), st, [], 0) :=
  rfl

/-- C7: on a ready provider with a convertible context, the boolean, string
and number resolvers forward exactly the `(user, flagKey, defaultValue)`
triple to the wrapped client's corresponding `...VariationDetails` operation
and project the returned `(variationValue, variationName, reason)` unchanged
into `(value, variant, reason)` — with exactly one client call, no events,
and no validation branch on the returned value (the equation holds for every
client function). -/
theorem c7_primitive_kinds_forward_and_project (client : Client)
    (flagKey : String) (context : EvaluationContext) (user : User)
    (huser : evaluationContextToBKTUser context = .ok user) :
    (∀ dv : Bool, resolveBooleanEvaluation { client := some client } flagKey dv context
      = (.ok { value := (client.booleanVariationDetails user flagKey dv).variationValue
             , variant := some (client.booleanVariationDetails user flagKey dv).variationName
             , reason := some (client.booleanVariationDetails user flagKey dv).reason },
          [], 1))
  ∧ (∀ dv : String, resolveStringEvaluation { client := some client } flagKey dv context
      = (.ok { value := (client.stringVariationDetails user flagKey dv).variationValue
             , variant := some (client.stringVariationDetails user flagKey dv).variationName
             , reason := some (client.stringVariationDetails user flagKey dv).reason },
          [], 1))
  ∧ (∀ dv : Int, resolveNumberEvaluation { client := some client } flagKey dv context
      = (.ok { value := (client.numberVariationDetails user flagKey dv).variationValue
             , variant := some (client.numberVariationDetails user flagKey dv).variationName
             , reason := some (client.numberVariationDetails user flagKey dv).reason },
          [], 1)) := by
  refine ⟨fun dv => ?_, fun dv => ?_, fun dv => ?_⟩ <;>
    simp [resolveBooleanEvaluation, resolveStringEvaluation, resolveNumberEvaluation,
      requiredBKTClient, huser, toResolutionDetails]

/-- C7 witness: the boolean projection on concrete fixtures. -/
theorem c7_primitive_kinds_forward_and_project_witness :
    evaluationContextToBKTUser ctx0 = .ok user0
  ∧ resolveBooleanEvaluation { client := some client0 } "flag" true ctx0
      = (.ok { value := (client0.booleanVariationDetails user0 "flag" true).variationValue
             , variant := some (client0.booleanVariationDetails user0 "flag" true).variationName
             , reason := some (client0.booleanVariationDetails user0 "flag" true).reason },
          [], 1) :=
  ⟨rfl, (c7_primitive_kinds_forward_and_project client0 "flag" ctx0 user0 rfl).1 true⟩

/-- C8 counterexample: `initialize` with an absent context is a user-visible
failure (it throws `InvalidContextError`) yet emits no event at all —
refuting the claim that every user-visible failure path emits an `Error`
signal. (The `TYPE_MISMATCH` outcomes likewise emit none, see the amended
theorem.) -/
theorem c8_counterexample_absent_context_emits_nothing :
    (providerInit { client := none } none (.ok client0) (.ok ())).1
        = .error (.InvalidContextError "context is required")
  ∧ (providerInit { client := none } none (.ok client0) (.ok ())).2.2.1 = [] :=
  ⟨rfl, rfl⟩

/-- C8 (amended): the evaluation-before-readiness failure and the non-timeout
initialization failure emit an `Error` signal, but the absent-context
`InvalidContextError` failure and the `TYPE_MISMATCH` validation outcomes
emit no signal at all. -/
theorem c8_error_signal_coverage (st : ProviderState) (ctx : EvaluationContext)
    (client : Client) (e : JsError) (he : e.name ≠ "TimeoutError")
    (fk s : String) (dv : Bool) :
    (providerInit st (some ctx) (.ok client) (.error e)).2.2.1 = [.Error]
  ∧ (resolveBooleanEvaluation { client := none } fk dv ctx).2.1 = [.Error]
  ∧ (providerInit st none (.ok client) (.ok ())).2.2.1 = []
  ∧ (resolveObjectEvaluation st fk (JSValue.str s) ctx).2.1 = [] := by
  refine ⟨?_, rfl, rfl, rfl⟩
  simp [providerInit, he]

/-- C8 amended witness: concrete instances of all four conjuncts. -/
theorem c8_error_signal_coverage_witness :
    (JsError.mk "Error" "boom").name ≠ "TimeoutError"
  ∧ ((providerInit { client := none } (some ctx0) (.ok client0)
        (.error (JsError.mk "Error" "boom"))).2.2.1 = [.Error]
    ∧ (resolveBooleanEvaluation { client := none } "flag" true ctx0).2.1 = [.Error]
    ∧ (providerInit { client := none } none (.ok client0) (.ok ())).2.2.1 = []
    ∧ (resolveObjectEvaluation { client := none } "flag" (JSValue.str "p") ctx0).2.1 = []) :=
  ⟨by decide,
    c8_error_signal_coverage { client := none } ctx0 client0 _ (by decide) "flag" "p" true⟩

/-- C9 counterexample: the older provider variant's readiness-wait timeout is
not 5,000 ms. -/
theorem c9_counterexample_variant_timeout_not_5000 :
    variantWaitTimeoutMs ≠ 5000 := by decide

/-- C9 (amended): the readiness wait of `initialize` uses the
caller-configurable constructor option, defaulting to 60,000 ms, while the
older provider variant uses a readiness-wait timeout of 30,000 ms. -/
theorem c9_wait_timeout_values :
    (∀ t, selectedInitTimeoutMs (some t) = t)
  ∧ selectedInitTimeoutMs none = 60000
  ∧ DEFAULT_WAIT_FOR_INITIALIZATION_TIMEOUT_MS = 60000
  ∧ variantWaitTimeoutMs = 30000 :=
  ⟨fun _ => rfl, rfl, rfl, rfl⟩

/-- C10: the default-value guard runs before the client-handle readiness
check: for every null or primitive default value, even with no client handle
present, `resolveObjectEvaluation` returns an `ok` `TYPE_MISMATCH` outcome
carrying the original default, throws nothing, emits no event, and makes no
client call. -/
theorem c10_guard_precedes_ready_gate (flagKey : String)
    (context : EvaluationContext) (defaultValue : JSValue)
    (h : defaultValue = JSValue.null ∨ jsTypeof defaultValue ≠ "object") :
    ∃ out : ResolutionDetails JSValue,
      resolveObjectEvaluation { client := none } flagKey defaultValue context
          = (.ok out, [], 0)
      ∧ out.value = defaultValue
      ∧ out.errorCode = some ErrorCode.TYPE_MISMATCH := by
  rcases h with h | h
  · subst h; exact ⟨_, rfl, rfl, rfl⟩
  · cases defaultValue with
    | null => simp [jsTypeof] at h
    | obj fields => simp [jsTypeof] at h
    | arr elems => simp [jsTypeof] at h
    | str s => exact ⟨_, rfl, rfl, rfl⟩
    | num n => exact ⟨_, rfl, rfl, rfl⟩
    | bool b => exact ⟨_, rfl, rfl, rfl⟩

/-- C10 witness: concrete primitive default with no client handle. -/
theorem c10_guard_precedes_ready_gate_witness :
    (jsTypeof (JSValue.num 7) ≠ "object")
  ∧ ∃ out : ResolutionDetails JSValue,
      resolveObjectEvaluation { client := none } "flag" (JSValue.num 7) ctx0
          = (.ok out, [], 0)
      ∧ out.value = JSValue.num 7
      ∧ out.errorCode = some ErrorCode.TYPE_MISMATCH :=
  ⟨by decide,
    c10_guard_precedes_ready_gate "flag" ctx0 (JSValue.num 7) (Or.inr (by decide))⟩

end BucketeerOF
